import Mathlib

/-!
Verification development for the student dropout prediction and retraining
service (backend/app).  The Python source is shallowly embedded: pure
numeric code becomes functions over exact rationals, the MongoDB-backed
state becomes explicit record-passing, and each fallible I/O operation is
driven by an explicit fault model, so that every branch of the Python
control flow has a counterpart here.  The machine-learning collaborators
(tensorflow, scikit-learn, joblib) are abstracted as parameters.
-/

/-- Embedding of the Python str.lower method: lowercases every
character of the string. -/
def pyLower (s : String) : String := String.mk (s.data.map Char.toLower)

/-- Embedding of the Python str.endswith method: suffix test on the
character sequences. -/
def pyEndsWith (s suffx : String) : Bool := List.isSuffixOf suffx.data s.data

/-- Gender enumeration (schema.py, class Genders): a string enum with
members male and female. -/
inductive Genders where
  | male
  | female
deriving DecidableEq, Repr

/-- Underlying string value of the str-enum member (schema.py). -/
def Genders.value : Genders → String
  | .male => "male"
  | .female => "female"

/-- User-facing natural-unit input (schema.py, UserFriendlyInput).
Numeric fields are modelled as exact rationals. -/
structure UserFriendlyInput where
  Curricular_units_2nd_sem_approved : ℚ
  Curricular_units_2nd_sem_grade : ℚ
  Tuition_fees_up_to_date : Bool
  Scholarship_holder : Bool
  Age_at_enrollment : ℚ
  Debtor : Bool
  Gender : Genders
deriving DecidableEq, Repr

/-- Range constraints enforced by the pydantic Field validators on
UserFriendlyInput (ge/le bounds in schema.py). -/
def UserFriendlyInput.valid (u : UserFriendlyInput) : Prop :=
  0 ≤ u.Curricular_units_2nd_sem_approved ∧ u.Curricular_units_2nd_sem_approved ≤ 20 ∧
  0 ≤ u.Curricular_units_2nd_sem_grade ∧ u.Curricular_units_2nd_sem_grade ≤ 20 ∧
  17 ≤ u.Age_at_enrollment ∧ u.Age_at_enrollment ≤ 70

/-- Standardized model input (schema.py, StudentInput).  The Gender
validator has already coerced the enum to an integer at this point. -/
structure StudentInput where
  Curricular_units_2nd_sem_approved : ℚ
  Curricular_units_2nd_sem_grade : ℚ
  Tuition_fees_up_to_date : ℤ
  Scholarship_holder : ℤ
  Age_at_enrollment : ℚ
  Debtor : ℤ
  Gender : ℤ
deriving DecidableEq, Repr

/-- Per-feature standardization constants (transformation.py,
STANDARDIZATION_PARAMS). -/
structure StdParams where
  mean : ℚ
  std : ℚ
deriving DecidableEq, Repr

/-- Constants for Curricular_units_2nd_sem_approved. -/
def approvedParams : StdParams := { mean := 10.5, std := 4.6 }

/-- Constants for Curricular_units_2nd_sem_grade. -/
def gradeParams : StdParams := { mean := 12.3, std := 3.8 }

/-- Constants for Age_at_enrollment. -/
def ageParams : StdParams := { mean := 23.5, std := 6.2 }

/-- transformation.py, transform_user_input: standardizes the three
numeric features, converts the boolean flags to 0/1, and encodes gender
by lowercased string comparison with "male". -/
def transform_user_input (u : UserFriendlyInput) : StudentInput :=
  { Curricular_units_2nd_sem_approved :=
      (u.Curricular_units_2nd_sem_approved - approvedParams.mean) / approvedParams.std
    Curricular_units_2nd_sem_grade :=
      (u.Curricular_units_2nd_sem_grade - gradeParams.mean) / gradeParams.std
    Tuition_fees_up_to_date := if u.Tuition_fees_up_to_date then 1 else 0
    Scholarship_holder := if u.Scholarship_holder then 1 else 0
    Age_at_enrollment :=
      (u.Age_at_enrollment - ageParams.mean) / ageParams.std
    Debtor := if u.Debtor then 1 else 0
    Gender := if pyLower u.Gender.value == "male" then 1 else 0 }

/-- Gender encoding of transform_user_input (transformation.py line 36),
viewed as a function of the underlying string value. -/
def transformGenderEncode (s : String) : ℤ :=
  if pyLower s == "male" then 1 else 0

/-- Gender coercion in DropoutPredictor.predict for a string-valued
Gender field (prediction.py lines 66-70). -/
def predictorGenderCoerce (s : String) : ℤ :=
  if pyLower s == "male" then 1 else 0

/-- Per-cell gender coercion in DropoutModel.train for an object-dtype
Gender column (model.py lines 208-212). -/
def trainGenderCoerce (s : String) : ℤ :=
  if pyLower s == "male" then 1 else 0

/-- Probability clamp in DropoutPredictor.predict (prediction.py line
113): proba = max(0.0, min(1.0, proba)). -/
def clampProbability (p : ℚ) : ℚ := max 0 (min 1 p)

/-- DropoutPredictor._get_risk_level (prediction.py lines 128-141). -/
def getRiskLevel (p : ℚ) : String :=
  if p < 0.4 then "low"
  else if p < 0.7 then "medium"
  else "high"

/-- Prediction response shape (schema.py, PredictionOutput). -/
structure PredictionResult where
  dropout_probability : ℚ
  risk_level : String
  model_version : String
deriving DecidableEq, Repr

/-- Tail of DropoutPredictor.predict (prediction.py lines 100-119): the
raw scalar extracted from the model output is clamped into the unit
interval and bucketed into a risk tier. -/
def predictorResult (raw : ℚ) : PredictionResult :=
  { dropout_probability := clampProbability raw
    risk_level := getRiskLevel (clampProbability raw)
    model_version := "1.0" }

/-- Risk bucketing inside DropoutModel.predict (model.py line 131).
This method is not invoked by the HTTP prediction path, which goes
through DropoutPredictor instead; it is recorded here because its
boundary behaviour (strict comparisons) differs from getRiskLevel. -/
def dropoutModelRiskLevel (p : ℚ) : String :=
  if p > 0.7 then "high" else if p > 0.4 then "medium" else "low"

/-- One stored training-data document (db.py upload_training_data and
schema.py TrainingData): a document id, the CSV payload cells, the
processed flag with its timestamp, and the upload timestamp. -/
structure TrainingRecord where
  id : ℕ
  fields : List (String × ℚ)
  processed : Bool
  uploaded_at : ℕ
  processed_at : Option ℕ
deriving DecidableEq, Repr

/-- The singleton retraining status document (db.py
ensure_collections_exist and the status updates of main.py),
parameterized by the metrics payload type M produced by training.
Absent optional fields are none; a Mongo update with a dollar-set
payload only overwrites the listed fields. -/
structure StatusDoc (M : Type) where
  status : String
  started_at : Option ℕ
  completed_at : Option ℕ
  failed_at : Option ℕ
  data_points : Option ℕ
  last_metrics : Option M
  error : Option String
deriving DecidableEq, Repr

/-- A document of the training_metrics collection
(db.py save_training_metrics). -/
structure MetricsDoc (M : Type) where
  metrics : M
  timestamp : ℕ
  data_points : ℕ
deriving DecidableEq, Repr

/-- The document-store state this backend reads and writes: the
training_data collection, the training_metrics collection and the
singleton retraining status document (none until first upserted). -/
structure AppState (M : Type) where
  training_data : List TrainingRecord
  training_metrics : List (MetricsDoc M)
  retraining_status : Option (StatusDoc M)
deriving DecidableEq, Repr

/-- Connectivity and fault model for one pass over the Mongo layer: each
flag gives the outcome the corresponding I/O operation would have if
attempted (client present, ping outcome, fresh-connection outcome, and
success of each individual read, insert or update). -/
structure MongoConn where
  clientUp : Bool
  pingOk : Bool
  reconnectOk : Bool
  findOk : Bool
  insertDataOk : Bool
  insertMetricsOk : Bool
  updateDataOk : Bool
  statusInProgressOk : Bool
  statusCompletedOk : Bool
  statusFailedOk : Bool
deriving DecidableEq, Repr

/-- db.py connect_to_mongo: an existing connection that still answers a
ping is reused, otherwise a fresh connection is attempted and its
outcome returned. -/
def connect_to_mongo (c : MongoConn) : Bool :=
  if c.clientUp && c.pingOk then true else c.reconnectOk

/-- Truthiness of main.py's module-level db name.  main.py binds db by
value with a from-import at module load, while db.py's global is still
None, and no statement in main.py ever rebinds the name: the module
functions declare it global but never assign it, and connect_to_mongo
rebinds only db.py's own globals.  So for the whole process lifetime
every direct use of db inside main.py sees None; only the db.py helper
functions, which read db.py's globals, see a live handle. -/
def mainDbIsNone : Bool := true

/-- main.py ensure_db_connection: the already-connected fast path tests
main.py's client and db names, which are permanently None
(mainDbIsNone), so the ping branch is dead and every call falls through
to exactly one connect_to_mongo attempt, whose outcome on db.py's
correctly maintained globals is returned.  The second component counts
fresh connection attempts made. -/
def ensure_db_connection (c : MongoConn) : Bool × ℕ :=
  if !mainDbIsNone && c.clientUp && c.pingOk then (true, 0)
  else (connect_to_mongo c, 1)

/-- db.py get_new_training_data: with no client and a failed reconnect
the function returns the empty list; a failure of the find itself is
caught and likewise returned as the empty list; otherwise it returns
exactly the documents whose processed flag is false. -/
def get_new_training_data (c : MongoConn) (recs : List TrainingRecord) :
    List TrainingRecord :=
  if !c.clientUp && !(connect_to_mongo c) then []
  else if !c.findOk then []
  else recs.filter (fun r => !r.processed)

/-- db.py mark_data_as_processed: empty input returns 0 immediately;
connection or update failures are caught and returned as 0 with the
store untouched; otherwise every document whose id occurs in the given
batch is set processed with a processed_at timestamp, and the modified
count is returned. -/
def mark_data_as_processed (c : MongoConn) (data : List TrainingRecord)
    (recs : List TrainingRecord) (now : ℕ) : List TrainingRecord × ℕ :=
  if data.isEmpty then (recs, 0)
  else if !c.clientUp && !(connect_to_mongo c) then (recs, 0)
  else if !c.updateDataOk then (recs, 0)
  else
    ((recs.map (fun r =>
        if r.id ∈ data.map TrainingRecord.id then
          { r with processed := true, processed_at := some now }
        else r)),
      (recs.filter (fun r => r.id ∈ data.map TrainingRecord.id)).length)

/-- db.py save_training_metrics: connection or insert failures are
caught and reported as false with the store untouched; otherwise a
metrics document is appended.  The data_points field is 0 because the
metrics dictionary produced by DropoutModel.train carries no data_points
key. -/
def save_training_metrics (M : Type) (c : MongoConn)
    (store : List (MetricsDoc M)) (metrics : M) (now : ℕ) :
    List (MetricsDoc M) × Bool :=
  if !c.clientUp && !(connect_to_mongo c) then (store, false)
  else if !c.insertMetricsOk then (store, false)
  else (store ++ [{ metrics := metrics, timestamp := now, data_points := 0 }], true)

/-- A status document with every optional field absent, the base a
Mongo upsert starts from. -/
def emptyStatusDoc (M : Type) : StatusDoc M :=
  { status := ""
    started_at := none
    completed_at := none
    failed_at := none
    data_points := none
    last_metrics := none
    error := none }

/-- One update_one on the status singleton with a dollar-set payload f:
an existing document has the listed fields overwritten; a missing
document is created from the payload when upsert is set and left
missing otherwise. -/
def updateStatusDoc (M : Type) (st : Option (StatusDoc M)) (upsert : Bool)
    (f : StatusDoc M → StatusDoc M) : Option (StatusDoc M) :=
  match st with
  | some d => some (f d)
  | none => if upsert then some (f (emptyStatusDoc M)) else none

/-- Required feature columns of uploaded training data (config.py,
TRAINING_DATA_FIELDS).  The same seven names are the feature_names list
of DropoutModel (model.py __init__). -/
def TRAINING_DATA_FIELDS : List String :=
  ["Curricular_units_2nd_sem_approved",
   "Curricular_units_2nd_sem_grade",
   "Tuition_fees_up_to_date",
   "Scholarship_holder",
   "Age_at_enrollment",
   "Debtor",
   "Gender"]

/-- Column set required of an uploaded CSV (db.py upload_training_data):
every training-data field plus the dropout_status label. -/
def requiredUploadFields : List String :=
  TRAINING_DATA_FIELDS ++ ["dropout_status"]

/-- A parsed CSV frame: header columns and data rows of cells aligned
with the columns. -/
structure CsvFrame where
  columns : List String
  rows : List (List ℚ)
deriving DecidableEq, Repr

/-- Failures raised inside db.py upload_training_data: no connection, a
validation failure listing the missing columns, or a failed insert. -/
inductive UploadError where
  | connectionUnavailable
  | missingColumns (missing : List String)
  | insertFailed
deriving DecidableEq, Repr

/-- The documents built from CSV rows before insertion (db.py
upload_training_data): each row keeps its cells and gains a false
processed flag and the upload timestamp; document ids continue from
startId. -/
def csvRecords (csv : CsvFrame) (startId now : ℕ) : List TrainingRecord :=
  csv.rows.enum.map (fun p =>
    { id := startId + p.1
      fields := csv.columns.zip p.2
      processed := false
      uploaded_at := now
      processed_at := none })

/-- db.py upload_training_data: raises when no connection can be made;
validates that every required column is present and raises listing the
full missing set otherwise; then inserts all rows flagged unprocessed
and returns the inserted count. -/
def upload_training_data (M : Type) (c : MongoConn) (csv : CsvFrame)
    (st : AppState M) (now : ℕ) : Except UploadError (AppState M × ℕ) :=
  if !c.clientUp && !(connect_to_mongo c) then .error .connectionUnavailable
  else
    if !(requiredUploadFields.filter (fun f => !(csv.columns.contains f))).isEmpty then
      .error (.missingColumns
        (requiredUploadFields.filter (fun f => !(csv.columns.contains f))))
    else if !c.insertDataOk then .error .insertFailed
    else
      .ok ({ st with training_data :=
              st.training_data ++ csvRecords csv st.training_data.length now },
           (csvRecords csv st.training_data.length now).length)

/-- HTTP outcome of the upload endpoint. -/
inductive UploadResponse where
  | success
  | badRequest (msg : String)
  | serverError (err : UploadError)
deriving DecidableEq, Repr

/-- HTTP status code of each upload outcome (main.py upload_data: 400
for a non-CSV filename, 500 for any exception raised by the helper). -/
def UploadResponse.statusCode : UploadResponse → ℕ
  | .success => 200
  | .badRequest _ => 400
  | .serverError _ => 500

/-- main.py upload_data (the route registered first, lines 85-96; the
duplicate registration at lines 120-136 never receives requests): a
filename not ending in .csv is rejected with 400, any exception from
upload_training_data is converted to a 500 response, and on success the
inserted records are committed. -/
def upload_data (M : Type) (fname : String) (c : MongoConn) (csv : CsvFrame)
    (st : AppState M) (now : ℕ) : UploadResponse × AppState M × ℕ :=
  if !(pyEndsWith fname ".csv") then (.badRequest "Only CSV files accepted", st, 0)
  else
    match upload_training_data M c csv st now with
    | .error e => (.serverError e, st, 0)
    | .ok (st2, n) => (.success, st2, n)

/-- HTTP outcome of the retrain trigger endpoint. -/
inductive RetrainResponse where
  | skipped
  | started (data_points : ℕ)
  | httpError (code : ℕ)
deriving DecidableEq, Repr

/-- main.py retrain endpoint (lines 139-183): when no connection can be
established an HTTPException(503) is raised inside the try block, but
the blanket except Exception at lines 181-183 catches it (HTTPException
subclasses Exception) and re-raises HTTPException(500), so the client
receives 500; an empty unprocessed batch returns skipped without
touching state; otherwise the in_progress upsert subscripts main.py's
db name, which is None (mainDbIsNone), so it raises and the inner
except swallows the error leaving the state unchanged, and the
background retraining task is scheduled.  The third component records
whether the background task was scheduled. -/
def retrainEndpoint (M : Type) (c : MongoConn) (st : AppState M) (now : ℕ) :
    RetrainResponse × AppState M × Bool :=
  if !(ensure_db_connection c).1 then (.httpError 500, st, false)
  else
    if (get_new_training_data c st.training_data).isEmpty then (.skipped, st, false)
    else
      (.started (get_new_training_data c st.training_data).length,
       (if !mainDbIsNone && c.statusInProgressOk then
          { st with retraining_status :=
              updateStatusDoc M st.retraining_status true (fun d =>
                { d with status := "in_progress", started_at := some now,
                         data_points :=
                           some (get_new_training_data c st.training_data).length }) }
        else st),
       true)

/-- The except branch of main.py retrain_model (lines 244-263): the
guard tests main.py's own db name against None, and that name is the
permanently-None import-time binding (mainDbIsNone), so the failed-status
upsert can never execute; were the guard ever true, the upsert would run
and a failure of that very write would be swallowed. -/
def setFailedStatus (M : Type) (c : MongoConn) (st : AppState M) (e : String)
    (now : ℕ) : AppState M :=
  if !mainDbIsNone then
    if c.statusFailedOk then
      { st with retraining_status :=
          updateStatusDoc M st.retraining_status true (fun d =>
            { d with status := "failed", error := some e, failed_at := some now }) }
    else st
  else st

/-- main.py retrain_model (lines 187-263), the background task, with the
training computation abstracted as trainFn.  Its first statement tests
the truthiness of main.py's own db name, and that from-import binding is
permanently None (mainDbIsNone), so every call returns before reading
data or training.  The remainder of the body is modelled after the
source text but is dead code: an empty batch means an early return; the
in_progress upsert may raise into the except branch; training may raise
into the except branch; the metrics insert and the mark-processed update
swallow their own failures inside the db helpers; finally the status
document is set to completed (that update uses no upsert), and a failure
there lands in the except branch as well. -/
def retrain_model (M : Type) (trainFn : List TrainingRecord → Except String M)
    (c : MongoConn) (st : AppState M) (now : ℕ) : AppState M :=
  if mainDbIsNone then st
  else
    if (get_new_training_data c st.training_data).isEmpty then st
    else if !c.statusInProgressOk then
      setFailedStatus M c st "status update failed" now
    else
      let st1 : AppState M :=
        { st with retraining_status :=
            updateStatusDoc M st.retraining_status true (fun d =>
              { d with status := "in_progress", started_at := some now }) }
      match trainFn (get_new_training_data c st.training_data) with
      | .error e => setFailedStatus M c st1 e now
      | .ok metrics =>
        let st2 : AppState M :=
          { st1 with training_metrics :=
              (save_training_metrics M c st1.training_metrics metrics now).1 }
        let st3 : AppState M :=
          { st2 with training_data :=
              (mark_data_as_processed c
                (get_new_training_data c st.training_data)
                st2.training_data now).1 }
        if !c.statusCompletedOk then
          setFailedStatus M c st3 "status update failed" now
        else
          { st3 with retraining_status :=
              updateStatusDoc M st3.retraining_status false (fun d =>
                { d with status := "completed", completed_at := some now,
                         last_metrics := some metrics }) }

/-- External machine-learning collaborators of the Model Wrapper
(tensorflow keras and the sklearn-based preprocessor), abstracted: P is
the type of a fitted preprocessor, M the type of a model.  The wrapper
logic below is proved for every choice of these operations. -/
structure MLOps (P M : Type) where
  fit : List (List ℚ) → P
  transform : P → List (List ℚ) → List (List ℚ)
  freshModel : M
  kerasFit : M → List (List ℚ) → List ℤ → M

/-- In-memory state of a DropoutModel instance (model.py __init__):
optional model, optional preprocessor, fixed feature-name list. -/
structure ModelState (P M : Type) where
  model : Option M
  preprocessor : Option P
  feature_names : List String
deriving DecidableEq, Repr

/-- model.py DropoutModel constructor: no model, no preprocessor, the
fixed seven feature names. -/
def dropoutModelInit (P M : Type) : ModelState P M :=
  { model := none, preprocessor := none, feature_names := TRAINING_DATA_FIELDS }

/-- A training frame as it reaches the numeric part of
DropoutModel.train, after the id-drop and type coercions (modelled by
the coercion functions above): header columns, rows given as named
cells, and the integer label column. -/
structure TrainFrame where
  columns : List String
  rows : List (List (String × ℚ))
  labels : List ℤ
deriving DecidableEq, Repr

/-- Column selection of the feature matrix, df indexed by feature_names:
each row is projected to the named features in order. -/
def selectFeatures (names : List String) (rows : List (List (String × ℚ))) :
    List (List ℚ) :=
  rows.map (fun row => names.map (fun nm => (row.lookup nm).getD 0))

/-- Persisted artifact contents (model.py _save and load_pretrained):
the file may hold a bare legacy Sequential model, the bundle dictionary
that _save writes, or a malformed dictionary lacking the required keys. -/
inductive ArtifactFile (P M : Type) where
  | sequentialModel (m : M)
  | bundle (model : Option M) (preprocessor : Option P)
      (feature_names : List String) (metadata : String)
  | malformed
deriving DecidableEq, Repr

/-- model.py _save: dumps the bundle dictionary holding the current
model, preprocessor, feature names and metadata as one object. -/
def DropoutModel_save (P M : Type) (s : ModelState P M) (meta : String) :
    ArtifactFile P M :=
  .bundle s.model s.preprocessor s.feature_names meta

/-- model.py load_pretrained: a missing file raises; a bare Sequential
model is installed with no preprocessor; a bundle dictionary must carry
the model and preprocessor keys, whose values are installed; any other
content raises.  Returns the installed model and preprocessor fields. -/
def load_pretrained (P M : Type) (file : Option (ArtifactFile P M)) :
    Except String (Option M × Option P) :=
  match file with
  | none => .error "Model file not found"
  | some (.sequentialModel m) => .ok (some m, none)
  | some (.bundle m p _ _) => .ok (m, p)
  | some .malformed => .error "Invalid .pkl structure"

/-- model.py DropoutModel.train (lines 220-295), state effects: missing
feature columns raise; a preprocessor is fitted exactly when none exists
yet, otherwise the existing one is reused; the model is created when
none exists and is then fitted; the artifact is saved at the end and
returned alongside the new state.  The 80/20 split, the keras fit and
the metric computation live inside the abstract MLOps operations. -/
def DropoutModel_train (P M : Type) (ops : MLOps P M) (s : ModelState P M)
    (df : TrainFrame) : Except String (ModelState P M × ArtifactFile P M) :=
  if !(s.feature_names.filter (fun col => !(df.columns.contains col))).isEmpty then
    .error "Missing required columns"
  else
    let pre : P :=
      match s.preprocessor with
      | none => ops.fit (selectFeatures s.feature_names df.rows)
      | some p => p
    let m0 : M :=
      match s.model with
      | none => ops.freshModel
      | some m => m
    let m1 : M :=
      ops.kerasFit m0 (ops.transform pre (selectFeatures s.feature_names df.rows))
        df.labels
    .ok ({ s with model := some m1, preprocessor := some pre },
         DropoutModel_save P M { s with model := some m1, preprocessor := some pre }
           "retrained")

/-- Concrete sample record: unprocessed. -/
def recA : TrainingRecord :=
  { id := 1, fields := [("Gender", 1)], processed := false,
    uploaded_at := 0, processed_at := none }

/-- Concrete sample record: already processed. -/
def recB : TrainingRecord :=
  { id := 2, fields := [], processed := true,
    uploaded_at := 0, processed_at := some 3 }

/-- A fully healthy connection: every operation succeeds. -/
def allOkConn : MongoConn :=
  { clientUp := true, pingOk := true, reconnectOk := true, findOk := true,
    insertDataOk := true, insertMetricsOk := true, updateDataOk := true,
    statusInProgressOk := true, statusCompletedOk := true, statusFailedOk := true }

/-- A connection that answers pings but whose training-data read fails. -/
def findFailConn : MongoConn := { allOkConn with findOk := false }

/-- A connection whose metrics insert fails while everything else works. -/
def metricsFailConn : MongoConn := { allOkConn with insertMetricsOk := false }

/-- A connection with no client and no way to reconnect. -/
def downConn : MongoConn :=
  { clientUp := false, pingOk := false, reconnectOk := false, findOk := false,
    insertDataOk := false, insertMetricsOk := false, updateDataOk := false,
    statusInProgressOk := false, statusCompletedOk := false, statusFailedOk := false }

/-- Store state holding one unprocessed record and nothing else. -/
def oneUnprocessedState : AppState ℕ :=
  { training_data := [recA], training_metrics := [], retraining_status := none }

/-- Store state holding one already-processed record. -/
def allProcessedState : AppState ℕ :=
  { training_data := [recB], training_metrics := [], retraining_status := none }

/-- Empty store state. -/
def emptyAppState : AppState ℕ :=
  { training_data := [], training_metrics := [], retraining_status := none }

/-- A CSV frame that carries the seven feature columns but lacks the
dropout_status label column. -/
def csvMissingLabel : CsvFrame :=
  { columns := TRAINING_DATA_FIELDS, rows := [[1, 2, 1, 0, 20, 0, 1]] }

/-- A training function that always succeeds with metrics payload 0. -/
def trainConst : List TrainingRecord → Except String ℕ := fun _ => .ok 0

/-- Concrete trivial machine-learning operations over natural numbers:
the fitted preprocessor remembers how many rows it was fit on. -/
def natOps : MLOps ℕ ℕ :=
  { fit := fun X => X.length, transform := fun _ X => X,
    freshModel := 0, kerasFit := fun m _ _ => m + 1 }

/-- Concrete training frame with all required columns and two rows. -/
def sampleFrame : TrainFrame :=
  { columns := TRAINING_DATA_FIELDS ++ ["dropout_status"],
    rows := [[("Gender", 1)], [("Gender", 0)]], labels := [1, 0] }

/-!
## Theorems
-/

/-- C2: for every input accepted by the prediction path the returned
probability lies in [0,1] and the risk level is the fixed-threshold
bucketing, with probability 0.4 mapping to "medium" and 0.7 to "high". -/
theorem prediction_probability_bounds_and_risk_buckets (raw : ℚ) :
    (0 ≤ (predictorResult raw).dropout_probability ∧
      (predictorResult raw).dropout_probability ≤ 1) ∧
    ((predictorResult raw).dropout_probability < 0.4 →
      (predictorResult raw).risk_level = "low") ∧
    (0.4 ≤ (predictorResult raw).dropout_probability ∧
        (predictorResult raw).dropout_probability < 0.7 →
      (predictorResult raw).risk_level = "medium") ∧
    (0.7 ≤ (predictorResult raw).dropout_probability →
      (predictorResult raw).risk_level = "high") ∧
    (predictorResult 0.4).risk_level = "medium" ∧
    (predictorResult 0.7).risk_level = "high" := by
  have h0 : 0 ≤ clampProbability raw := le_max_left 0 _
  have h1 : clampProbability raw ≤ 1 := max_le (by norm_num) (min_le_left 1 raw)
  refine ⟨⟨h0, h1⟩, ?_, ?_, ?_, ?_, ?_⟩
  · intro h
    have hh : clampProbability raw < 0.4 := h
    show getRiskLevel (clampProbability raw) = "low"
    unfold getRiskLevel
    rw [if_pos hh]
  · rintro ⟨hge, hlt⟩
    have hge' : (0.4 : ℚ) ≤ clampProbability raw := hge
    have hlt' : clampProbability raw < 0.7 := hlt
    show getRiskLevel (clampProbability raw) = "medium"
    unfold getRiskLevel
    rw [if_neg (not_lt.mpr hge'), if_pos hlt']
  · intro hge
    have hge' : (0.7 : ℚ) ≤ clampProbability raw := hge
    have hge4 : (0.4 : ℚ) ≤ clampProbability raw := le_trans (by norm_num) hge'
    show getRiskLevel (clampProbability raw) = "high"
    unfold getRiskLevel
    rw [if_neg (not_lt.mpr hge4), if_neg (not_lt.mpr hge')]
  · show getRiskLevel (clampProbability 0.4) = "medium"
    norm_num [clampProbability, getRiskLevel]
  · show getRiskLevel (clampProbability 0.7) = "high"
    norm_num [clampProbability, getRiskLevel]

/-- Witness for C2 at the concrete raw output 0.5. -/
theorem prediction_probability_bounds_and_risk_buckets_witness :
    (predictorResult 0.5).risk_level = "medium" :=
  (prediction_probability_bounds_and_risk_buckets 0.5).2.2.1
    ⟨by norm_num [predictorResult, clampProbability],
     by norm_num [predictorResult, clampProbability]⟩

/-- C6: on every valid natural-unit input the Feature Transform maps
each numeric feature x to (x - mean) / std with the fixed constants,
maps each boolean flag to 1/0, and maps gender male to 1, female to 0. -/
theorem transform_user_input_standardizes (u : UserFriendlyInput) (h : u.valid) :
    (transform_user_input u).Curricular_units_2nd_sem_approved =
      (u.Curricular_units_2nd_sem_approved - 10.5) / 4.6 ∧
    (transform_user_input u).Curricular_units_2nd_sem_grade =
      (u.Curricular_units_2nd_sem_grade - 12.3) / 3.8 ∧
    (transform_user_input u).Age_at_enrollment =
      (u.Age_at_enrollment - 23.5) / 6.2 ∧
    (u.Tuition_fees_up_to_date = true → (transform_user_input u).Tuition_fees_up_to_date = 1) ∧
    (u.Tuition_fees_up_to_date = false → (transform_user_input u).Tuition_fees_up_to_date = 0) ∧
    (u.Scholarship_holder = true → (transform_user_input u).Scholarship_holder = 1) ∧
    (u.Scholarship_holder = false → (transform_user_input u).Scholarship_holder = 0) ∧
    (u.Debtor = true → (transform_user_input u).Debtor = 1) ∧
    (u.Debtor = false → (transform_user_input u).Debtor = 0) ∧
    (u.Gender = Genders.male → (transform_user_input u).Gender = 1) ∧
    (u.Gender = Genders.female → (transform_user_input u).Gender = 0) := by
  refine ⟨rfl, rfl, rfl, ?_, ?_, ?_, ?_, ?_, ?_, ?_, ?_⟩ <;>
    intro hv <;>
    simp [transform_user_input, hv, Genders.value] <;>
    decide

/-- Witness for C6 at a concrete in-range input. -/
theorem transform_user_input_standardizes_witness :
    (transform_user_input
        { Curricular_units_2nd_sem_approved := 10
          Curricular_units_2nd_sem_grade := 12
          Tuition_fees_up_to_date := true
          Scholarship_holder := false
          Age_at_enrollment := 20
          Debtor := false
          Gender := Genders.male }).Gender = 1 :=
  (transform_user_input_standardizes
      { Curricular_units_2nd_sem_approved := 10
        Curricular_units_2nd_sem_grade := 12
        Tuition_fees_up_to_date := true
        Scholarship_holder := false
        Age_at_enrollment := 20
        Debtor := false
        Gender := Genders.male }
      (by norm_num [UserFriendlyInput.valid])).2.2.2.2.2.2.2.2.2.1 rfl

/-- C10: the three gender-encoding sites (user-input transform,
predictor coercion, training coercion) agree on every string: a string
is encoded as 1 exactly when its lowercased form equals "male", every
other string is silently encoded as 0, and the result is always 0 or 1
(no string is ever rejected). -/
theorem gender_encoding_layers_agree (s : String) :
    transformGenderEncode s = predictorGenderCoerce s ∧
    predictorGenderCoerce s = trainGenderCoerce s ∧
    (predictorGenderCoerce s = 1 ↔ pyLower s = "male") ∧
    (pyLower s ≠ "male" → predictorGenderCoerce s = 0) ∧
    (predictorGenderCoerce s = 0 ∨ predictorGenderCoerce s = 1) := by
  by_cases hc : pyLower s = "male" <;>
    simp [transformGenderEncode, predictorGenderCoerce, trainGenderCoerce, hc]

/-- Witness for C10: the unrecognized gender string "Unknown" is
silently encoded as 0 at the predictor and training layers. -/
theorem gender_encoding_layers_agree_witness :
    predictorGenderCoerce "Unknown" = 0 ∧ trainGenderCoerce "Unknown" = 0 := by
  have h := gender_encoding_layers_agree "Unknown"
  have h0 : predictorGenderCoerce "Unknown" = 0 := h.2.2.2.1 (by decide)
  exact ⟨h0, by rw [← h.2.1]; exact h0⟩

/-- C3: the unprocessed-data query returns exactly the records whose
processed flag is false (so a processed record is never re-selected),
and marking the fetched batch sets processed and processed_at exactly on
the documents whose ids are in that batch, leaves every other record
untouched in the store, and removes the batch from the next query. -/
theorem processed_flag_lifecycle (c : MongoConn) (recs : List TrainingRecord)
    (now : ℕ) (hClient : c.clientUp = true) (hFind : c.findOk = true)
    (hUpd : c.updateDataOk = true) :
    (∀ r, r ∈ get_new_training_data c recs ↔ r ∈ recs ∧ r.processed = false) ∧
    (∀ r, r ∈ (mark_data_as_processed c (get_new_training_data c recs) recs now).1 →
      r.id ∈ (get_new_training_data c recs).map TrainingRecord.id →
      r.processed = true ∧ r.processed_at = some now) ∧
    (∀ r, r ∈ recs → r.id ∉ (get_new_training_data c recs).map TrainingRecord.id →
      r ∈ (mark_data_as_processed c (get_new_training_data c recs) recs now).1) ∧
    (∀ r, r ∈ (mark_data_as_processed c (get_new_training_data c recs) recs now).1 →
      r.id ∉ (get_new_training_data c recs).map TrainingRecord.id → r ∈ recs) ∧
    (∀ r, r ∈ get_new_training_data c
        (mark_data_as_processed c (get_new_training_data c recs) recs now).1 →
      r.id ∉ (get_new_training_data c recs).map TrainingRecord.id) := by
  have hquery : ∀ rs : List TrainingRecord,
      get_new_training_data c rs = rs.filter (fun r => !r.processed) := by
    intro rs
    simp [get_new_training_data, hClient, hFind]
  have hmark : ∀ data rs : List TrainingRecord,
      (mark_data_as_processed c data rs now).1 =
        rs.map (fun r =>
          if r.id ∈ data.map TrainingRecord.id then
            { r with processed := true, processed_at := some now }
          else r) := by
    intro data rs
    cases data with
    | nil => simp [mark_data_as_processed]
    | cons a as => simp [mark_data_as_processed, hClient, hUpd]
  have hproc : ∀ r,
      r ∈ (mark_data_as_processed c (get_new_training_data c recs) recs now).1 →
      r.id ∈ (get_new_training_data c recs).map TrainingRecord.id →
      r.processed = true ∧ r.processed_at = some now := by
    intro r hr hid
    rw [hmark] at hr
    rcases List.mem_map.mp hr with ⟨r0, hr0, heq⟩
    by_cases h0 : r0.id ∈ (get_new_training_data c recs).map TrainingRecord.id
    · rw [if_pos h0] at heq
      subst heq
      exact ⟨rfl, rfl⟩
    · rw [if_neg h0] at heq
      subst heq
      exact absurd hid h0
  refine ⟨?_, hproc, ?_, ?_, ?_⟩
  · intro r
    rw [hquery]
    simp [List.mem_filter]
  · intro r hr hid
    rw [hmark]
    refine List.mem_map.mpr ⟨r, hr, ?_⟩
    rw [if_neg hid]
  · intro r hr hid
    rw [hmark] at hr
    rcases List.mem_map.mp hr with ⟨r0, hr0, heq⟩
    by_cases h0 : r0.id ∈ (get_new_training_data c recs).map TrainingRecord.id
    · rw [if_pos h0] at heq
      exfalso
      apply hid
      rw [← heq]
      exact h0
    · rw [if_neg h0] at heq
      rw [← heq]
      exact hr0
  · intro r hr hid
    rw [hquery] at hr
    have h2 := List.mem_filter.mp hr
    have hp := (hproc r h2.1 hid).1
    have hfalse := h2.2
    rw [hp] at hfalse
    exact absurd hfalse (by decide)

/-- Witness for C3: over a store with one unprocessed and one processed
record, the query selects exactly the unprocessed one. -/
theorem processed_flag_lifecycle_witness :
    recA ∈ get_new_training_data allOkConn [recA, recB] ∧
    recB ∉ get_new_training_data allOkConn [recA, recB] := by
  have h := processed_flag_lifecycle allOkConn [recA, recB] 7 rfl rfl rfl
  constructor
  · exact (h.1 recA).mpr ⟨by simp, rfl⟩
  · intro hmem
    have hb := (h.1 recB).mp hmem
    have : recB.processed = true := rfl
    rw [this] at hb
    exact absurd hb.2 (by decide)

/-- C4: triggering the retrain endpoint with zero unprocessed records
over a healthy connection answers skipped, schedules no training work
and leaves the whole store state, in particular the retraining status
document, unchanged. -/
theorem retrain_skips_on_empty_batch (M : Type) (c : MongoConn) (st : AppState M)
    (now : ℕ) (hClient : c.clientUp = true) (hPing : c.pingOk = true)
    (hFind : c.findOk = true)
    (hEmpty : st.training_data.filter (fun r => !r.processed) = []) :
    retrainEndpoint M c st now = (.skipped, st, false) ∧
    (retrainEndpoint M c st now).2.1.retraining_status = st.retraining_status := by
  have hens : (ensure_db_connection c).1 = true := by
    simp [ensure_db_connection, connect_to_mongo, mainDbIsNone, hClient, hPing]
  have hget : get_new_training_data c st.training_data = [] := by
    simp [get_new_training_data, hClient, hFind, hEmpty]
  constructor
  · simp [retrainEndpoint, hens, hget]
  · simp [retrainEndpoint, hens, hget]

/-- Witness for C4 over a store whose only record is processed. -/
theorem retrain_skips_on_empty_batch_witness :
    retrainEndpoint ℕ allOkConn allProcessedState 9 =
      (.skipped, allProcessedState, false) :=
  (retrain_skips_on_empty_batch ℕ allOkConn allProcessedState 9 rfl rfl rfl
    (by decide)).1

/-- C5 as amended: an uploaded CSV lacking the label column or any
required feature column is rejected with HTTP 500 (not 400) whose error
payload enumerates the full set of missing column names, and zero rows
are inserted: the store is unchanged. -/
theorem upload_missing_columns_rejected (M : Type) (fname : String)
    (c : MongoConn) (csv : CsvFrame) (st : AppState M) (now : ℕ)
    (hName : pyEndsWith fname ".csv" = true) (hClient : c.clientUp = true)
    (hMissing : requiredUploadFields.filter (fun f => !(csv.columns.contains f)) ≠ []) :
    upload_data M fname c csv st now =
      (.serverError (.missingColumns
          (requiredUploadFields.filter (fun f => !(csv.columns.contains f)))),
        st, 0) ∧
    (upload_data M fname c csv st now).1.statusCode = 500 := by
  have hm : (requiredUploadFields.filter (fun f => !(csv.columns.contains f))).isEmpty = false := by
    cases hcase : requiredUploadFields.filter (fun f => !(csv.columns.contains f)) with
    | nil => exact absurd hcase hMissing
    | cons a as => rfl
  have hres : upload_data M fname c csv st now =
      (.serverError (.missingColumns
          (requiredUploadFields.filter (fun f => !(csv.columns.contains f)))),
        st, 0) := by
    unfold upload_data upload_training_data
    rw [hName, hClient, hm]
    simp
  exact ⟨hres, by rw [hres]; rfl⟩

/-- Witness for C5 (amended) at a CSV lacking only dropout_status. -/
theorem upload_missing_columns_rejected_witness :
    upload_data ℕ "data.csv" allOkConn csvMissingLabel emptyAppState 0 =
      (.serverError (.missingColumns
          (requiredUploadFields.filter
            (fun f => !(csvMissingLabel.columns.contains f)))),
        emptyAppState, 0) :=
  (upload_missing_columns_rejected ℕ "data.csv" allOkConn csvMissingLabel
    emptyAppState 0 (by decide) rfl (by decide)).1

/-- Counterexample to C5 as stated: the CSV lacking dropout_status is
rejected with HTTP status 500, not the claimed 400 (the endpoint wraps
the validation error in a 500 response); the missing set is still
enumerated and no row is inserted. -/
theorem upload_missing_columns_is_500_not_400 :
    (upload_data ℕ "data.csv" allOkConn csvMissingLabel emptyAppState 0).1.statusCode = 500 ∧
    (upload_data ℕ "data.csv" allOkConn csvMissingLabel emptyAppState 0).1.statusCode ≠ 400 ∧
    (upload_data ℕ "data.csv" allOkConn csvMissingLabel emptyAppState 0).1 =
      .serverError (.missingColumns ["dropout_status"]) ∧
    (upload_data ℕ "data.csv" allOkConn csvMissingLabel emptyAppState 0).2.1 =
      emptyAppState := by
  refine ⟨?_, ?_, ?_, ?_⟩ <;> decide

/-- C9 as amended: every call of ensure_db_connection makes exactly one
fresh connection attempt (the fast path tests main.py's permanently-None
bindings), and when that attempt fails the retrain endpoint rejects the
request without touching state — with HTTP 500, because the
HTTPException(503) raised inside the try block is caught by the blanket
except and re-raised as 500; read and write failures inside the db
helpers are swallowed rather than surfaced: a failed read of the
unprocessed batch is silently returned as the empty list (an empty
batch), a failed mark-processed update returns 0 with the store
untouched, and a failed metrics insert reports false with the store
untouched. -/
theorem db_failure_surfacing_and_swallowing (M : Type) (c : MongoConn)
    (st : AppState M) (now : ℕ) (metrics : M) :
    (ensure_db_connection c).2 = 1 ∧
    ((ensure_db_connection c).1 = false →
      retrainEndpoint M c st now = (.httpError 500, st, false)) ∧
    (c.clientUp = true → c.findOk = false →
      get_new_training_data c st.training_data = []) ∧
    (c.clientUp = true → c.updateDataOk = false →
      mark_data_as_processed c (get_new_training_data c st.training_data)
        st.training_data now = (st.training_data, 0)) ∧
    (c.clientUp = true → c.insertMetricsOk = false →
      save_training_metrics M c st.training_metrics metrics now =
        (st.training_metrics, false)) := by
  refine ⟨?_, ?_, ?_, ?_, ?_⟩
  · simp [ensure_db_connection, mainDbIsNone]
  · intro h
    simp [retrainEndpoint, h]
  · intro h1 h2
    simp [get_new_training_data, h1, h2]
  · intro h1 h2
    cases hB : get_new_training_data c st.training_data with
    | nil => simp [mark_data_as_processed]
    | cons b bs => simp [mark_data_as_processed, h1, h2]
  · intro h1 h2
    simp [save_training_metrics, h1, h2]

/-- Witness for C9 (amended): with the connection down, the retrain
endpoint rejects the request with 500 and one connection attempt was
made. -/
theorem db_failure_surfacing_and_swallowing_witness :
    retrainEndpoint ℕ downConn emptyAppState 0 =
      (.httpError 500, emptyAppState, false) ∧
    (ensure_db_connection downConn).2 = 1 :=
  ⟨(db_failure_surfacing_and_swallowing ℕ downConn emptyAppState 0 0).2.1 rfl,
   (db_failure_surfacing_and_swallowing ℕ downConn emptyAppState 0 0).1⟩

/-- Counterexample to C9 as stated: with a live connection whose read of
the training_data collection fails, get_new_training_data silently
returns the empty list over a store holding an unprocessed record, which
is exactly the result for a genuinely empty store, and the retrain
endpoint consequently answers skipped instead of surfacing an error; and
when no connection can be made at all the endpoint rejects the request
with HTTP 500, never with the claimed 503, since the raised
HTTPException(503) is caught by the blanket except and re-raised as 500. -/
theorem failed_read_treated_as_empty_batch :
    recA.processed = false ∧
    get_new_training_data findFailConn [recA] = [] ∧
    get_new_training_data allOkConn [] = [] ∧
    retrainEndpoint ℕ findFailConn oneUnprocessedState 0 =
      (.skipped, oneUnprocessedState, false) ∧
    retrainEndpoint ℕ downConn emptyAppState 0 =
      (.httpError 500, emptyAppState, false) ∧
    (retrainEndpoint ℕ downConn emptyAppState 0).1 ≠ .httpError 503 := by
  refine ⟨rfl, ?_, rfl, ?_, ?_, ?_⟩ <;> decide

/-- C1: the orchestrator body that would implement the claimed failure
handling is unreachable.  main.py's db name is the import-time None
binding, so the background task returns at its first guard for every
fault model, every training function, every store state and every
clock: the status document is never set to failed (nor to completed or
in_progress) and no record is ever marked processed.  The closed
conjuncts evaluate the task at the failing input of the claim, a store
with one unprocessed record, a succeeding training function and a
failing metrics insert: the status document stays absent, never
becoming failed, and the record stays unmarked. -/
theorem retrain_model_task_is_dead_code (M : Type)
    (trainFn : List TrainingRecord → Except String M) (c : MongoConn)
    (st : AppState M) (now : ℕ) :
    retrain_model M trainFn c st now = st ∧
    (retrain_model ℕ trainConst metricsFailConn oneUnprocessedState 5).retraining_status =
      none ∧
    (retrain_model ℕ trainConst metricsFailConn oneUnprocessedState 5).training_data.all
      (fun r => !r.processed) = true := by
  refine ⟨?_, ?_, ?_⟩
  · simp [retrain_model, mainDbIsNone]
  · decide
  · decide

/-- C7: DropoutModel.train fits a fresh preprocessor exactly when none
exists yet: starting with no preprocessor the resulting state carries
the freshly fitted one, starting with an existing preprocessor the very
same one is kept, and after any successful train call every further
successful train call reuses the preprocessor of the first unchanged. -/
theorem preprocessor_fitted_exactly_once (P M : Type) (ops : MLOps P M)
    (s : ModelState P M) (df df2 : TrainFrame)
    (hCols : (s.feature_names.filter (fun col => !(df.columns.contains col))).isEmpty = true) :
    (s.preprocessor = none →
      (DropoutModel_train P M ops s df).map (fun r => r.1.preprocessor) =
        .ok (some (ops.fit (selectFeatures s.feature_names df.rows)))) ∧
    (∀ p, s.preprocessor = some p →
      (DropoutModel_train P M ops s df).map (fun r => r.1.preprocessor) =
        .ok (some p)) ∧
    (∀ r, DropoutModel_train P M ops s df = .ok r →
      ∀ r2, DropoutModel_train P M ops r.1 df2 = .ok r2 →
        r2.1.preprocessor = r.1.preprocessor) := by
  refine ⟨?_, ?_, ?_⟩
  · intro hpre
    unfold DropoutModel_train
    rw [hCols, hpre]
    rfl
  · intro p hpre
    unfold DropoutModel_train
    rw [hCols, hpre]
    rfl
  · intro r hr r2 hr2
    have hpre : r.1.preprocessor =
        some (match s.preprocessor with
              | none => ops.fit (selectFeatures s.feature_names df.rows)
              | some p => p) := by
      unfold DropoutModel_train at hr
      rw [hCols] at hr
      simp at hr
      rw [← hr]
    unfold DropoutModel_train at hr2
    by_cases h2 :
        (r.1.feature_names.filter (fun col => !(df2.columns.contains col))).isEmpty = true
    · rw [h2] at hr2
      simp [hpre] at hr2
      rw [← hr2, hpre]
    · rw [Bool.not_eq_true] at h2
      rw [h2] at hr2
      simp at hr2

/-- Witness for C7: a first train on the fresh instance fits the
preprocessor of the trivial operations. -/
theorem preprocessor_fitted_exactly_once_witness :
    (DropoutModel_train ℕ ℕ natOps (dropoutModelInit ℕ ℕ) sampleFrame).map
        (fun r => r.1.preprocessor) =
      .ok (some (natOps.fit
        (selectFeatures (dropoutModelInit ℕ ℕ).feature_names sampleFrame.rows))) :=
  (preprocessor_fitted_exactly_once ℕ ℕ natOps (dropoutModelInit ℕ ℕ)
    sampleFrame sampleFrame (by decide)).1 rfl

/-- C8: persisting the artifact bundle with _save and restoring it with
load_pretrained recovers exactly the saved model and preprocessor, so
any probability function evaluated on the restored pair at any fixed
input agrees with the pre-save instance. -/
theorem save_load_round_trip (P M : Type) (s : ModelState P M) (meta : String)
    (predictFn : Option M → Option P → List ℚ → ℚ) (input : List ℚ) :
    load_pretrained P M (some (DropoutModel_save P M s meta)) =
      .ok (s.model, s.preprocessor) ∧
    (load_pretrained P M (some (DropoutModel_save P M s meta))).map
        (fun r => predictFn r.1 r.2 input) =
      .ok (predictFn s.model s.preprocessor input) :=
  ⟨rfl, rfl⟩
